import Mathlib

/-!
Verification of the inventory-procurement backend core against its
specification.  The definitions below are a shallow embedding of the
TypeScript source: route handlers become pure functions over explicit
store states, the JWT library is modelled symbolically, and random number
generation is modelled by an explicit stream of draws.
-/

namespace Inventory

/- ## Password policy (src/utils/password.ts, src/utils/random.ts) -/

/-- The special-character class of the strength validator,
the characters matched by the regex in validatePasswordStrength. -/
def specialChars : List Char :=
  ['!', '@', '#', '$', '%', '^', '&', '*', '(', ')', ',', '.', '?', '\"',
   ':', '\x7b', '\x7d', '|', '<', '>']

def hasUppercase (s : String) : Bool := s.toList.any fun c => 'A' ≤ c && c ≤ 'Z'

def hasLowercase (s : String) : Bool := s.toList.any fun c => 'a' ≤ c && c ≤ 'z'

def hasDigit (s : String) : Bool := s.toList.any fun c => '0' ≤ c && c ≤ '9'

def hasSpecial (s : String) : Bool := s.toList.any fun c => specialChars.contains c

/-- validatePasswordStrength from src/utils/password.ts: returns the first
violation message, or none when the password is strong. -/
def validatePasswordStrength (password : String) : Option String :=
  if password.length < 8 then
    some "Password must be at least 8 characters long."
  else if !hasUppercase password then
    some "Password must contain at least one uppercase letter."
  else if !hasLowercase password then
    some "Password must contain at least one lowercase letter."
  else if !hasDigit password then
    some "Password must contain at least one digit."
  else if !hasSpecial password then
    some "Password must contain at least one special character."
  else
    none

/-- The fixed alphabet generateTempPassword draws from (src/utils/random.ts). -/
def passwordAlphabet : String :=
  "ABCDEFGHIJKLMNOPQRSTUVWXYZabcdefghijklmnopqrstuvwxyz0123456789!@#$%^&*()_+"

/-- One candidate draw of generateTempPassword: `length` characters indexed
into the alphabet by the random stream `r` (each draw reduced modulo the
alphabet size, as Math.floor(Math.random() * chars.length) is). -/
def drawPassword (r : Nat → Nat) (length : Nat) : String :=
  String.mk ((List.range length).map fun i =>
    passwordAlphabet.toList.getD (r i % passwordAlphabet.toList.length) 'A')

/-- generateTempPassword from src/utils/random.ts: rejection-sampling loop,
returning the first candidate accepted by validatePasswordStrength.  The
unbounded `while (true)` loop is given an explicit fuel; `none` means the
budget ran out before a candidate was accepted. -/
def generateTempPassword (r : Nat → Nat) (fuel : Nat) (length : Nat) : Option String :=
  match fuel with
  | 0 => none
  | Nat.succ fuel' =>
    let password := drawPassword r length
    match validatePasswordStrength password with
    | none => some password
    | some _ => generateTempPassword (fun i => r (i + length)) fuel' length

/-- The random primitive generateTempPassword draws characters with:
`Math.random()` (src/utils/random.ts line 16). -/
inductive RandomSource
  | mathRandom
  | cryptoRandom
deriving DecidableEq

/-- Whether a random source is cryptographically strong:  Math.random is a
general-purpose PRNG; crypto.randomBytes and the Web Crypto API are
cryptographically strong. -/
def RandomSource.isCryptographicallyStrong : RandomSource → Bool
  | .mathRandom => false
  | .cryptoRandom => true

/-- The source used by generateTempPassword in the code is Math.random. -/
def generateTempPasswordSource : RandomSource := .mathRandom

/- ## Token service (src/utils/jwt.ts; the jsonwebtoken library modelled
symbolically) -/

/-- The claim set carried by a token (JwtPayload in src/utils/jwt.ts). -/
structure JwtPayload where
  sub : String
  role : String
  mustChangePassword : Bool
deriving DecidableEq

/-- Modelled from the spec: the signature computed by the external
jsonwebtoken library over the full claim set and expiry with the server-held
secret ("a signature over the full claim set using a server-held secret").
Symbolic-crypto model: a signature value is a free constructor of its
inputs, so two signatures are equal exactly when secret, payload and expiry
all agree. -/
structure JwtSignature where
  secret : String
  payload : JwtPayload
  exp : Nat
deriving DecidableEq

/-- A structurally well-formed signed token: claims, expiry, signature. -/
structure Token where
  payload : JwtPayload
  exp : Nat
  sig : JwtSignature
deriving DecidableEq

/-- signJwt from src/utils/jwt.ts: jwt.sign(payload, ENV.JWT_SECRET,
expiresIn) — embeds expiry now + expiresIn and a signature over the full
claim set. -/
def signJwt (secret : String) (now expiresIn : Nat) (payload : JwtPayload) : Token :=
  { payload := payload, exp := now + expiresIn,
    sig := { secret := secret, payload := payload, exp := now + expiresIn } }

/-- verifyJwt from src/utils/jwt.ts: jwt.verify(token, ENV.JWT_SECRET).
Modelled from the spec for the library part: fails when the token is expired
or the signature does not match the claim set under the server secret;
otherwise returns the decoded claims. -/
def verifyJwt (secret : String) (now : Nat) (t : Token) : Except String JwtPayload :=
  if t.exp ≤ now then .error "TokenInvalid"
  else if t.sig = { secret := secret, payload := t.payload, exp := t.exp } then
    .ok t.payload
  else .error "TokenInvalid"

/-- The raw bearer credential presented by a request: either a structurally
well-formed token or bytes that do not parse as a JWT at all. -/
inductive TokenBytes
  | wellFormed (t : Token)
  | malformed (s : String)
deriving DecidableEq

/-- jwt.verify on raw bytes: malformed input throws, well-formed tokens are
checked by verifyJwt. -/
def verifyJwtBytes (secret : String) (now : Nat) : TokenBytes → Except String JwtPayload
  | .malformed _ => .error "TokenInvalid"
  | .wellFormed t => verifyJwt secret now t

/- ## Authorization gate (src/middleware/auth.ts) -/

/-- The authenticated request context req.user set by authMiddleware
(AuthUser in src/middleware/auth.ts). -/
structure AuthUser where
  id : String
  role : String
  mustChangePassword : Bool
deriving DecidableEq

/-- The Authorization header of a request: absent, present but not starting
with the Bearer prefix, or carrying a bearer credential. -/
inductive Authorization
  | missing
  | nonBearer (s : String)
  | bearer (b : TokenBytes)
deriving DecidableEq

/-- Result of one middleware step: call next() with the (possibly updated)
request, or terminate the request with a status code and error body. -/
inductive MwResult (α : Type)
  | next (ctx : α)
  | respond (status : Nat) (error : String)
deriving DecidableEq

/-- authMiddleware from src/middleware/auth.ts: requires an Authorization
header starting with Bearer, verifies the token, and on success stores the
claims on the request; any verification error is caught and mapped to 401. -/
def authMiddleware (secret : String) (now : Nat) (auth : Authorization) :
    MwResult AuthUser :=
  match auth with
  | .missing => .respond 401 "Missing or invalid Authorization header."
  | .nonBearer _ => .respond 401 "Missing or invalid Authorization header."
  | .bearer b =>
    match verifyJwtBytes secret now b with
    | .ok payload =>
      .next { id := payload.sub, role := payload.role,
              mustChangePassword := payload.mustChangePassword }
    | .error _ => .respond 401 "Invalid or expired token."

/-- requireAuth from src/middleware/auth.ts. -/
def requireAuth (user : Option AuthUser) : MwResult AuthUser :=
  match user with
  | none => .respond 401 "Authentication required."
  | some u => .next u

/-- requireNonFirstLogin from src/middleware/auth.ts: rejects an
authenticated user whose token-borne mustChangePassword flag is true. -/
def requireNonFirstLogin (user : Option AuthUser) : MwResult AuthUser :=
  match user with
  | none => .respond 401 "Authentication required."
  | some u =>
    if u.mustChangePassword then
      .respond 403 "You must change your password before accessing this resource."
    else .next u

/-- requireRole from src/middleware/auth.ts. -/
def requireRole (roles : List String) (user : Option AuthUser) : MwResult AuthUser :=
  match user with
  | none => .respond 401 "Authentication required."
  | some u =>
    if roles.contains u.role then .next u
    else .respond 403 "You do not have permission to perform this action."

/-- The guards that appear in the route files' middleware chains. -/
inductive Guard
  | auth
  | requireAuthG
  | nonFirstLogin
  | role (allowed : List String)
deriving DecidableEq

/-- The request data the guards read: the server secret, the current time
and the Authorization header.  The guards read nothing else — in
particular none of them queries the user store. -/
structure GuardReq where
  secret : String
  now : Nat
  authorization : Authorization
deriving DecidableEq

/-- One guard applied to the request and the current req.user value. -/
def runGuard (req : GuardReq) (g : Guard) (user : Option AuthUser) :
    MwResult (Option AuthUser) :=
  match g with
  | .auth =>
    match authMiddleware req.secret req.now req.authorization with
    | .next u => .next (some u)
    | .respond s e => .respond s e
  | .requireAuthG =>
    match requireAuth user with
    | .next u => .next (some u)
    | .respond s e => .respond s e
  | .nonFirstLogin =>
    match requireNonFirstLogin user with
    | .next u => .next (some u)
    | .respond s e => .respond s e
  | .role allowed =>
    match requireRole allowed user with
    | .next u => .next (some u)
    | .respond s e => .respond s e

/-- Express middleware chaining: each guard either calls next() so the rest
of the chain runs, or responds and ends the request; the handler is reached
(`next` at the end) only when every guard passed. -/
def runChain (req : GuardReq) : List Guard → Option AuthUser → MwResult (Option AuthUser)
  | [], user => .next user
  | g :: gs, user =>
    match runGuard req g user with
    | .next user' => runChain req gs user'
    | .respond s e => .respond s e

/-- INVENTORY_ROLES from the item and warehouse route files. -/
def INVENTORY_ROLES : List String := ["ADMIN", "STOREKEEPER", "PROCUREMENT"]

/-- The admin-only role list used by src/routes/user.routes.ts. -/
def ADMIN_ONLY : List String := ["ADMIN"]

/-- The endpoints mounted in src/app.ts via the four route files. -/
inductive Endpoint
  | login | me | changePassword
  | createUser | listUsers | getUser | patchUser
  | createCategory | listCategories | createItem | listItems
  | createWarehouse | listWarehouses | openingStock | listStock
deriving DecidableEq

/-- The middleware chain declared on each route, in source order. -/
def guardsOf : Endpoint → List Guard
  | .login => []
  | .me => [.auth, .requireAuthG]
  | .changePassword => [.auth, .requireAuthG]
  | .createUser => [.auth, .requireAuthG, .nonFirstLogin, .role ADMIN_ONLY]
  | .listUsers => [.auth, .requireAuthG, .nonFirstLogin, .role ADMIN_ONLY]
  | .getUser => [.auth, .requireAuthG, .nonFirstLogin, .role ADMIN_ONLY]
  | .patchUser => [.auth, .requireAuthG, .nonFirstLogin, .role ADMIN_ONLY]
  | .createCategory => [.auth, .requireAuthG, .nonFirstLogin, .role INVENTORY_ROLES]
  | .listCategories => [.auth, .requireAuthG, .nonFirstLogin, .role INVENTORY_ROLES]
  | .createItem => [.auth, .requireAuthG, .nonFirstLogin, .role INVENTORY_ROLES]
  | .listItems => [.auth, .requireAuthG, .nonFirstLogin, .role INVENTORY_ROLES]
  | .createWarehouse => [.auth, .requireAuthG, .nonFirstLogin, .role INVENTORY_ROLES]
  | .listWarehouses => [.auth, .requireAuthG, .nonFirstLogin, .role INVENTORY_ROLES]
  | .openingStock => [.auth, .requireAuthG, .nonFirstLogin, .role INVENTORY_ROLES]
  | .listStock => [.auth, .requireAuthG, .nonFirstLogin, .role INVENTORY_ROLES]

/-- An endpoint is protected when its route declares middleware (every such
chain starts with authMiddleware and so requires a bearer token). -/
def Endpoint.isProtected (e : Endpoint) : Bool := !(guardsOf e).isEmpty

/- ## Credential store and authentication use cases
(src/routes/auth.routes.ts, src/routes/user.routes.ts, src/utils/password.ts,
src/utils/validation.ts) -/

/-- Modelled from the spec: the salted one-way digest produced by the
external bcrypt library, to which hashPassword and verifyPassword in
src/utils/password.ts delegate ("a salted one-way digest using a slow
adaptive hash").  Symbolic model: the digest is a free constructor of the
plaintext and the salt; verification compares the plaintext. -/
structure Digest where
  plain : String
  salt : Nat
deriving DecidableEq

/-- hashPassword from src/utils/password.ts (bcrypt.hash with a fresh salt,
the salt made explicit). -/
def hashPassword (salt : Nat) (plain : String) : Digest :=
  { plain := plain, salt := salt }

/-- verifyPassword from src/utils/password.ts (bcrypt.compare). -/
def verifyPassword (plain : String) (d : Digest) : Bool := d.plain == plain

/-- Discard leading and trailing whitespace (the email.trim() call). -/
def trimChars (l : List Char) : List Char :=
  ((l.dropWhile Char.isWhitespace).reverse.dropWhile Char.isWhitespace).reverse

/-- A character admitted by the regex class that excludes whitespace and the
at sign. -/
def localChar (c : Char) : Bool := !c.isWhitespace && c != '@'

/-- isValidEmail from src/utils/validation.ts: the trimmed string must match
one-or-more non-space non-at characters, an at sign, and a domain of
non-space non-at characters containing an interior dot (the backtracking
semantics of the anchored regex). -/
def isValidEmail (email : String) : Bool :=
  let s := trimChars email.toList
  let lp := s.takeWhile fun c => c != '@'
  match s.dropWhile fun c => c != '@' with
  | [] => false
  | _ :: dom =>
    !lp.isEmpty && lp.all localChar && !dom.isEmpty && dom.all localChar &&
      ((dom.dropLast).drop 1).contains '.'

/-- A row of the User table (prisma schema / migration SQL). -/
structure StoredUser where
  id : String
  email : String
  password : Digest
  fullName : String
  role : String
  department : Option String
  isActive : Bool
  mustChangePassword : Bool
  canChangePassword : Bool
  lastLoginAt : Option Nat
deriving DecidableEq

/-- prisma.user.findUnique on the email unique key. -/
def findUserByEmail (db : List StoredUser) (email : String) : Option StoredUser :=
  db.find? fun u => u.email == email

/-- prisma.user.findUnique on the id primary key. -/
def findUserById (db : List StoredUser) (id : String) : Option StoredUser :=
  db.find? fun u => u.id == id

/-- Outcome of the login handler: an error response, or the 200 response
(token and the user whose sanitized projection is returned) together with
the updated user table. -/
inductive LoginOutcome
  | err (status : Nat) (msg : String)
  | ok (token : Token) (user : StoredUser) (newDb : List StoredUser)
deriving DecidableEq

/-- POST /api/auth/login from src/routes/auth.routes.ts.  Missing and empty
strings are both falsy in the source's `!email || !password` check. -/
def login (db : List StoredUser) (secret : String) (now expiresIn : Nat)
    (emailArg passwordArg : Option String) : LoginOutcome :=
  match emailArg, passwordArg with
  | some email, some password =>
    if email = "" ∨ password = "" then .err 400 "Email and password are required."
    else if !isValidEmail email then .err 400 "Invalid email format."
    else
      match findUserByEmail db email with
      | none => .err 401 "Invalid credentials."
      | some user =>
        if !user.isActive then .err 401 "Invalid credentials."
        else if !verifyPassword password user.password then .err 401 "Invalid credentials."
        else
          let newDb := db.map fun u =>
            if u.id = user.id then { u with lastLoginAt := some now } else u
          let token := signJwt secret now expiresIn
            { sub := user.id, role := user.role,
              mustChangePassword := user.mustChangePassword }
          .ok token user newDb
  | _, _ => .err 400 "Email and password are required."

/-- Outcome of the change-password handler; the resulting user table is
carried in every case so that store effects are observable. -/
inductive ChangePasswordOutcome
  | err (status : Nat) (msg : String) (db : List StoredUser)
  | ok (db : List StoredUser)
deriving DecidableEq

/-- POST /api/auth/change-password from src/routes/auth.routes.ts, with the
authenticated user id supplied by the middleware and the fresh bcrypt salt
made explicit. -/
def changePassword (db : List StoredUser) (salt : Nat) (userId : String)
    (currentArg newArg : Option String) : ChangePasswordOutcome :=
  match currentArg, newArg with
  | some currentPassword, some newPassword =>
    if currentPassword = "" ∨ newPassword = "" then
      .err 400 "Current password and new password are required." db
    else
      match findUserById db userId with
      | none => .err 404 "User not found." db
      | some user =>
        if !user.canChangePassword then
          .err 403 "This account is not allowed to change password." db
        else if !verifyPassword currentPassword user.password then
          .err 400 "Current password is incorrect." db
        else
          match validatePasswordStrength newPassword with
          | some strengthError => .err 400 strengthError db
          | none =>
            .ok (db.map fun u =>
              if u.id = user.id then
                { u with password := hashPassword salt newPassword,
                         mustChangePassword := false }
              else u)
  | _, _ => .err 400 "Current password and new password are required." db

/-- ALLOWED_ROLES from src/routes/user.routes.ts. -/
def ALLOWED_ROLES : List String :=
  ["ADMIN", "FINANCE", "PROCUREMENT", "STOREKEEPER", "DEPARTMENT_MANAGER", "STAFF"]

/-- The `department: department || null` normalization in user creation:
an absent or empty department becomes null. -/
def normalizeDepartment (d : Option String) : Option String :=
  match d with
  | some s => if s = "" then none else some s
  | none => none

/-- The sanitized user projection returned by the user endpoints: no
password digest field exists in this type. -/
structure UserProjection where
  id : String
  email : String
  fullName : String
  role : String
  department : Option String
  mustChangePassword : Bool
  canChangePassword : Bool
  isActive : Bool
deriving DecidableEq

/-- Observable outcome of the create-user handler: response status and body
fields, the server log lines emitted, whether an outbound mail was
attempted, and the resulting user table. -/
structure CreateUserOutcome where
  status : Nat
  error : Option String
  user : Option UserProjection
  temporaryPassword : Option String
  log : List String
  emailAttempted : Bool
  db : List StoredUser
deriving DecidableEq

/-- POST /api/users from src/routes/user.routes.ts: admin user creation.
`tempPassword` is the value generateTempPassword(14) returned, `newId` the
id the store generates, `emailOk` whether the outbound mail succeeds — a
delivery failure is caught, logged and swallowed. -/
def createUser (db : List StoredUser) (salt : Nat) (newId tempPassword : String)
    (emailOk : Bool) (emailArg fullNameArg roleArg departmentArg : Option String) :
    CreateUserOutcome :=
  match emailArg, fullNameArg, roleArg with
  | some email, some fullName, some role =>
    if email = "" ∨ fullName = "" ∨ role = "" then
      { status := 400, error := some "email, fullName and role are required.",
        user := none, temporaryPassword := none, log := [],
        emailAttempted := false, db := db }
    else if !isValidEmail email then
      { status := 400, error := some "Invalid email format.", user := none,
        temporaryPassword := none, log := [], emailAttempted := false, db := db }
    else if !ALLOWED_ROLES.contains role then
      { status := 400, error := some "Invalid role.", user := none,
        temporaryPassword := none, log := [], emailAttempted := false, db := db }
    else
      match findUserByEmail db email with
      | some _ =>
        { status := 409, error := some "A user with this email already exists.",
          user := none, temporaryPassword := none, log := [],
          emailAttempted := false, db := db }
      | none =>
        let newUser : StoredUser :=
          { id := newId, email := email,
            password := hashPassword salt tempPassword,
            fullName := fullName, role := role,
            department := normalizeDepartment departmentArg,
            isActive := true, mustChangePassword := true,
            canChangePassword := true, lastLoginAt := none }
        { status := 201, error := none,
          user := some
            { id := newUser.id, email := newUser.email,
              fullName := newUser.fullName, role := newUser.role,
              department := newUser.department,
              mustChangePassword := newUser.mustChangePassword,
              canChangePassword := newUser.canChangePassword,
              isActive := newUser.isActive },
          temporaryPassword := some tempPassword,
          log :=
            ["[user.create] New user " ++ email ++
              " created with temporary password: " ++ tempPassword] ++
            (if emailOk then [] else
              ["[user.create] Failed to send temp password email:"]),
          emailAttempted := true,
          db := db ++ [newUser] }
  | _, _, _ =>
    { status := 400, error := some "email, fullName and role are required.",
      user := none, temporaryPassword := none, log := [],
      emailAttempted := false, db := db }

/- ## Stock ledger (src/routes/warehouse.routes.ts, prisma schema) -/

/-- A row of the Item table (fields used plus catalog attributes). -/
structure Item where
  id : String
  name : String
  sku : Option String
  description : Option String
  unit : String
  isTrackable : Bool
  isActive : Bool
  categoryId : String
deriving DecidableEq

/-- A row of the Warehouse table. -/
structure Warehouse where
  id : String
  name : String
  code : String
  location : Option String
  description : Option String
  isActive : Bool
deriving DecidableEq

/-- The StockMovementType enum of the prisma schema. -/
inductive StockMovementType
  | OPENING
  | IN
  | OUT
  | ADJUSTMENT
deriving DecidableEq

/-- A row of the StockLevel table: one row per (itemId, warehouseId). -/
structure StockLevelRow where
  itemId : String
  warehouseId : String
  quantity : Int
  reorderLevel : Int
deriving DecidableEq

/-- A row of the append-only StockMovement table. -/
structure StockMovementRow where
  itemId : String
  warehouseId : String
  movementType : StockMovementType
  quantity : Int
  referenceType : Option String
  referenceId : Option String
  remarks : Option String
  createdById : String
deriving DecidableEq

/-- The part of the relational store the opening-stock handler touches. -/
structure StockDb where
  items : List Item
  warehouses : List Warehouse
  stockLevels : List StockLevelRow
  stockMovements : List StockMovementRow
deriving DecidableEq

/-- prisma.item.findUnique on the id key. -/
def findItem (items : List Item) (id : String) : Option Item :=
  items.find? fun i => i.id == id

/-- prisma.warehouse.findUnique on the id key. -/
def findWarehouse (ws : List Warehouse) (id : String) : Option Warehouse :=
  ws.find? fun w => w.id == id

/-- Lookup on the (itemId, warehouseId) unique key of StockLevel. -/
def findStockLevel (levels : List StockLevelRow) (itemId warehouseId : String) :
    Option StockLevelRow :=
  levels.find? fun r => r.itemId == itemId && r.warehouseId == warehouseId

/-- prisma.stockLevel.upsert on the (itemId, warehouseId) unique key:
overwrite quantity and reorderLevel when the row exists, create it
otherwise; returns the row the store reports back together with the new
table. -/
def upsertStockLevel (levels : List StockLevelRow) (itemId warehouseId : String)
    (quantity reorderLevel : Int) : StockLevelRow × List StockLevelRow :=
  let row : StockLevelRow :=
    { itemId := itemId, warehouseId := warehouseId,
      quantity := quantity, reorderLevel := reorderLevel }
  if levels.any fun r => r.itemId == itemId && r.warehouseId == warehouseId then
    (row, levels.map fun r =>
      if r.itemId == itemId && r.warehouseId == warehouseId then
        { r with quantity := quantity, reorderLevel := reorderLevel }
      else r)
  else
    (row, levels ++ [row])

/-- Outcome of the opening-stock handler: a handled error response, the 200
response, or an uncaught store exception (mapped to 500 by errorHandler);
the resulting store state is carried in every case. -/
inductive OpeningStockOutcome
  | err (status : Nat) (msg : String) (db : StockDb)
  | ok (level : StockLevelRow) (db : StockDb)
  | storeError (db : StockDb)
deriving DecidableEq

/-- POST /api/warehouses/opening-stock from src/routes/warehouse.routes.ts.
The StockLevel upsert and the StockMovement insert are two separate store
calls with no surrounding transaction in the source, so `failUpsert` and
`failInsert` model the store failing the respective write independently; a
write that already succeeded stays committed when a later one fails. -/
def recordOpeningStock (db : StockDb) (actorId : String)
    (itemIdArg warehouseIdArg : Option String) (quantityArg reorderLevelArg : Option Int)
    (failUpsert failInsert : Bool) : OpeningStockOutcome :=
  match itemIdArg, warehouseIdArg, quantityArg with
  | some itemId, some warehouseId, some quantity =>
    if itemId = "" ∨ warehouseId = "" then
      .err 400 "itemId, warehouseId and quantity are required." db
    else if quantity < 0 then
      .err 400 "quantity cannot be negative." db
    else
      match findItem db.items itemId with
      | none => .err 400 "Invalid or inactive itemId." db
      | some item =>
        if !item.isActive then .err 400 "Invalid or inactive itemId." db
        else
          match findWarehouse db.warehouses warehouseId with
          | none => .err 400 "Invalid or inactive warehouseId." db
          | some warehouse =>
            if !warehouse.isActive then .err 400 "Invalid or inactive warehouseId." db
            else if failUpsert then .storeError db
            else
              let up := upsertStockLevel db.stockLevels itemId warehouseId
                quantity (reorderLevelArg.getD 0)
              let db1 : StockDb := { db with stockLevels := up.2 }
              if failInsert then .storeError db1
              else
                let movement : StockMovementRow :=
                  { itemId := itemId, warehouseId := warehouseId,
                    movementType := .OPENING, quantity := quantity,
                    referenceType := some "OPENING_STOCK", referenceId := none,
                    remarks := some "Opening stock", createdById := actorId }
                .ok up.1 { db1 with stockMovements := db1.stockMovements ++ [movement] }
  | _, _, _ => .err 400 "itemId, warehouseId and quantity are required." db

/-- A minimal concrete store: one active item, one active warehouse, no
stock rows and no movements yet. -/
def demoStockDb : StockDb :=
  { items := [{ id := "i1", name := "Pen", sku := none, description := none,
                unit := "pcs", isTrackable := true, isActive := true,
                categoryId := "c1" }],
    warehouses := [{ id := "w1", name := "Main", code := "MW", location := none,
                     description := none, isActive := true }],
    stockLevels := [], stockMovements := [] }

/-! ## Theorems -/

theorem validatePasswordStrength_none_iff (p : String) :
    validatePasswordStrength p = none ↔
      (8 ≤ p.length ∧ hasUppercase p = true ∧ hasLowercase p = true ∧
       hasDigit p = true ∧ hasSpecial p = true) := by
  unfold validatePasswordStrength
  repeat' split
  all_goals simp_all

/-- C8: for every length argument, every random stream and every fuel bound,
a password returned by generateTempPassword passes validatePasswordStrength:
it has length at least 8 and contains at least one uppercase letter, one
lowercase letter, one digit and one special character as defined by the
validator. -/
theorem generateTempPassword_passes_validator (r : Nat → Nat) (fuel len : Nat) (p : String)
    (h : generateTempPassword r fuel len = some p) :
    validatePasswordStrength p = none ∧ 8 ≤ p.length ∧ hasUppercase p = true ∧
      hasLowercase p = true ∧ hasDigit p = true ∧ hasSpecial p = true := by
  have hnone : validatePasswordStrength p = none := by
    induction fuel generalizing r with
    | zero => simp [generateTempPassword] at h
    | succ fuel ih =>
      simp only [generateTempPassword] at h
      cases hv : validatePasswordStrength (drawPassword r len) with
      | none => rw [hv] at h; simp at h; rw [← h]; exact hv
      | some msg => rw [hv] at h; exact ih _ h
  exact ⟨hnone, (validatePasswordStrength_none_iff p).mp hnone⟩

/-- Witness for C8 at a concrete random stream: one attempt of length 8
drawing indices 0, 26, 52, 62 produces the accepted password. -/
theorem generateTempPassword_passes_validator_witness :
    validatePasswordStrength "Aa0!Aa0!" = none ∧ 8 ≤ ("Aa0!Aa0!" : String).length ∧
      hasUppercase "Aa0!Aa0!" = true ∧ hasLowercase "Aa0!Aa0!" = true ∧
      hasDigit "Aa0!Aa0!" = true ∧ hasSpecial "Aa0!Aa0!" = true :=
  generateTempPassword_passes_validator (fun i => [0, 26, 52, 62].getD (i % 4) 0) 1 8
    "Aa0!Aa0!" (by decide)

/-- C7: the random source used by generateTempPassword to draw characters is
Math.random, a general-purpose PRNG, which is not a cryptographically strong
random source — the code contradicts the specification here. -/
theorem generateTempPassword_source_not_strong :
    generateTempPasswordSource.isCryptographicallyStrong = false ∧
    generateTempPasswordSource = RandomSource.mathRandom := ⟨rfl, rfl⟩

/-- C6: a token issued by signJwt on a claim set verifies to the identical
claims at any time before expiry; verification fails once the token is
expired; verification fails for every token whose signature field is not the
signature of its own payload and expiry under the server secret — this
covers every alteration of an issued token: changed payload or expiry with
the signature kept, altered signature bytes with the claims kept, and
signatures forged under a different secret; conversely whatever verify
accepts is unexpired and is literally a token signJwt issues under this
secret for its own payload and expiry, so every token that differs in any
component from every validly issued token is rejected; and bytes that do not
parse as a token at all are rejected. -/
theorem signJwt_verifyJwt_roundtrip (secret : String) (t0 dur now : Nat)
    (claims : JwtPayload) :
    (now < t0 + dur →
      verifyJwt secret now (signJwt secret t0 dur claims) = .ok claims) ∧
    (t0 + dur ≤ now →
      verifyJwt secret now (signJwt secret t0 dur claims) = .error "TokenInvalid") ∧
    (∀ t' : Token,
      t'.sig ≠ { secret := secret, payload := t'.payload, exp := t'.exp } →
      verifyJwt secret now t' = .error "TokenInvalid") ∧
    (∀ (t' : Token) (c : JwtPayload), verifyJwt secret now t' = .ok c →
      now < t'.exp ∧ c = t'.payload ∧ t' = signJwt secret 0 t'.exp t'.payload) ∧
    (∀ s : String, verifyJwtBytes secret now (.malformed s) = .error "TokenInvalid") := by
  refine ⟨?_, ?_, ?_, ?_, fun s => rfl⟩
  · intro h
    have hle : ¬ ((signJwt secret t0 dur claims).exp ≤ now) := by
      simp [signJwt]; omega
    simp [verifyJwt, hle, signJwt]
    omega
  · intro h
    have hle : (signJwt secret t0 dur claims).exp ≤ now := by
      simp [signJwt]; omega
    simp [verifyJwt, hle]
  · intro t' hs
    by_cases hexp : t'.exp ≤ now
    · simp [verifyJwt, hexp]
    · simp [verifyJwt, hexp, hs]
  · intro t' c hok
    unfold verifyJwt at hok
    by_cases hexp : t'.exp ≤ now
    · rw [if_pos hexp] at hok
      cases hok
    · rw [if_neg hexp] at hok
      by_cases hs : t'.sig = { secret := secret, payload := t'.payload, exp := t'.exp }
      · rw [if_pos hs] at hok
        injection hok with hok
        obtain ⟨p, e, sg⟩ := t'
        simp only at hs hok ⊢
        refine ⟨Nat.not_le.mp hexp, hok.symm, ?_⟩
        simp [signJwt, hs, Nat.zero_add]
      · rw [if_neg hs] at hok
        cases hok

/-- Witness for C6 at a concrete claim set: a token issued at time 0 with a
one-hour expiry verifies to the identical claims at time 10, fails at time
5000, and a token carrying the same claims but signed under a different
secret fails at time 10. -/
theorem signJwt_verifyJwt_roundtrip_witness :
    verifyJwt "s" 10 (signJwt "s" 0 3600 ⟨"u1", "ADMIN", false⟩) =
      .ok ⟨"u1", "ADMIN", false⟩ ∧
    verifyJwt "s" 5000 (signJwt "s" 0 3600 ⟨"u1", "ADMIN", false⟩) =
      .error "TokenInvalid" ∧
    verifyJwt "s" 10 (signJwt "other" 0 3600 ⟨"u1", "ADMIN", false⟩) =
      .error "TokenInvalid" :=
  ⟨(signJwt_verifyJwt_roundtrip "s" 0 3600 10 ⟨"u1", "ADMIN", false⟩).1 (by norm_num),
   (signJwt_verifyJwt_roundtrip "s" 0 3600 5000 ⟨"u1", "ADMIN", false⟩).2.1 (by norm_num),
   (signJwt_verifyJwt_roundtrip "s" 0 3600 10 ⟨"u1", "ADMIN", false⟩).2.2.1
     (signJwt "other" 0 3600 ⟨"u1", "ADMIN", false⟩) (by decide)⟩

/-- C3 amended: every authentication failure cause — missing Authorization
header, header without the Bearer prefix, malformed token bytes, a signature
that does not match the server secret, and an expired token — is rejected
with status 401 and never passes the middleware; the three token-level
causes produce identical responses and the two header-level causes produce
identical responses, though the header-level error body differs from the
token-level one. -/
theorem authMiddleware_failures_unauthenticated (secret hdr garbled : String)
    (now : Nat) (tBad tExp : Token)
    (hsig : tBad.sig ≠ { secret := secret, payload := tBad.payload, exp := tBad.exp })
    (hexp : tExp.exp ≤ now) :
    authMiddleware secret now .missing =
      .respond 401 "Missing or invalid Authorization header." ∧
    authMiddleware secret now (.nonBearer hdr) =
      .respond 401 "Missing or invalid Authorization header." ∧
    authMiddleware secret now (.bearer (.malformed garbled)) =
      .respond 401 "Invalid or expired token." ∧
    authMiddleware secret now (.bearer (.wellFormed tBad)) =
      .respond 401 "Invalid or expired token." ∧
    authMiddleware secret now (.bearer (.wellFormed tExp)) =
      .respond 401 "Invalid or expired token." := by
  refine ⟨rfl, rfl, rfl, ?_, ?_⟩
  · unfold authMiddleware verifyJwtBytes verifyJwt
    by_cases h : tBad.exp ≤ now
    · simp [h]
    · simp [h, hsig]
  · unfold authMiddleware verifyJwtBytes verifyJwt
    simp [hexp]

/-- Witness for C3 at concrete requests: a token signed under a different
secret and an expired token, at time 100 with server secret "s". -/
theorem authMiddleware_failures_unauthenticated_witness :
    authMiddleware "s" 100 .missing =
      .respond 401 "Missing or invalid Authorization header." ∧
    authMiddleware "s" 100 (.nonBearer "Basic abc") =
      .respond 401 "Missing or invalid Authorization header." ∧
    authMiddleware "s" 100 (.bearer (.malformed "zzz")) =
      .respond 401 "Invalid or expired token." ∧
    authMiddleware "s" 100 (.bearer (.wellFormed (signJwt "other" 50 3600 ⟨"u", "STAFF", false⟩))) =
      .respond 401 "Invalid or expired token." ∧
    authMiddleware "s" 100 (.bearer (.wellFormed (signJwt "s" 0 50 ⟨"u", "STAFF", false⟩))) =
      .respond 401 "Invalid or expired token." :=
  authMiddleware_failures_unauthenticated "s" "Basic abc" "zzz" 100
    (signJwt "other" 50 3600 ⟨"u", "STAFF", false⟩)
    (signJwt "s" 0 50 ⟨"u", "STAFF", false⟩) (by decide) (by decide)

/-- C3 counterexample: at concrete inputs the missing-header failure and the
expired-token failure are distinguishable — both respond 401 but with
different error bodies — refuting the claim that all authentication failure
causes produce identical error content. -/
theorem authMiddleware_messages_differ :
    authMiddleware "s" 100 .missing =
      .respond 401 "Missing or invalid Authorization header." ∧
    authMiddleware "s" 100 (.bearer (.wellFormed (signJwt "s" 0 50 ⟨"u", "STAFF", false⟩))) =
      .respond 401 "Invalid or expired token." ∧
    authMiddleware "s" 100 .missing ≠
      authMiddleware "s" 100 (.bearer (.wellFormed (signJwt "s" 0 50 ⟨"u", "STAFF", false⟩))) := by
  refine ⟨rfl, by decide, by decide⟩

/-- C4 amended: for a valid unexpired bearer token whose claims carry
mustChangePassword = true, every protected endpoint except change-password
and get-current-user terminates with the 403 password-rotation response,
whatever role the token carries, so neither the role check's verdict nor the
handler is ever reached; the flag used is the one in the token claims (the
guards read no store at all); the change-password chain passes the same
request through to its handler; and in any chain no guard is evaluated after
an earlier guard has failed — the remaining guards are irrelevant to the
outcome. -/
theorem rotation_guard_blocks (e : Endpoint) (secret : String) (now : Nat) (tok : Token)
    (hexp : now < tok.exp)
    (hsig : tok.sig = { secret := secret, payload := tok.payload, exp := tok.exp })
    (hmcp : tok.payload.mustChangePassword = true)
    (hlogin : e ≠ .login) (hme : e ≠ .me) (hcp : e ≠ .changePassword) :
    (runChain ⟨secret, now, .bearer (.wellFormed tok)⟩ (guardsOf e) none =
      .respond 403 "You must change your password before accessing this resource.") ∧
    (runChain ⟨secret, now, .bearer (.wellFormed tok)⟩ (guardsOf .changePassword) none =
      .next (some ⟨tok.payload.sub, tok.payload.role, tok.payload.mustChangePassword⟩)) ∧
    (∀ (req : GuardReq) (g : Guard) (gs gs' : List Guard) (u : Option AuthUser)
        (st : Nat) (msg : String),
      runGuard req g u = .respond st msg →
      runChain req (g :: gs) u = .respond st msg ∧
        runChain req (g :: gs) u = runChain req (g :: gs') u) := by
  have hver : verifyJwt secret now tok = .ok tok.payload := by
    unfold verifyJwt
    rw [if_neg (by omega), if_pos hsig]
  have hauth : authMiddleware secret now (.bearer (.wellFormed tok)) =
      .next ⟨tok.payload.sub, tok.payload.role, tok.payload.mustChangePassword⟩ := by
    simp [authMiddleware, verifyJwtBytes, hver]
  refine ⟨?_, ?_, ?_⟩
  · have hrun : ∀ R, runChain ⟨secret, now, .bearer (.wellFormed tok)⟩
        [.auth, .requireAuthG, .nonFirstLogin, .role R] none =
        .respond 403 "You must change your password before accessing this resource." := by
      intro R
      simp [runChain, runGuard, hauth, requireAuth, requireNonFirstLogin, hmcp]
    cases e <;>
      first
        | exact absurd rfl hlogin
        | exact absurd rfl hme
        | exact absurd rfl hcp
        | exact hrun _
  · simp [guardsOf, runChain, runGuard, hauth, requireAuth]
  · intro req g gs gs' u st msg h
    constructor <;> simp [runChain, h]

/-- Witness for C4 at a concrete request: an ADMIN token with
mustChangePassword = true is blocked on the create-user endpoint but passes
the change-password chain. -/
theorem rotation_guard_blocks_witness :
    (runChain ⟨"s", 10, .bearer (.wellFormed (signJwt "s" 0 3600 ⟨"u1", "ADMIN", true⟩))⟩
        (guardsOf .createUser) none =
      .respond 403 "You must change your password before accessing this resource.") ∧
    (runChain ⟨"s", 10, .bearer (.wellFormed (signJwt "s" 0 3600 ⟨"u1", "ADMIN", true⟩))⟩
        (guardsOf .changePassword) none =
      .next (some ⟨"u1", "ADMIN", true⟩)) :=
  ⟨(rotation_guard_blocks .createUser "s" 10 (signJwt "s" 0 3600 ⟨"u1", "ADMIN", true⟩)
      (by decide) rfl rfl (by decide) (by decide) (by decide)).1,
   (rotation_guard_blocks .createUser "s" 10 (signJwt "s" 0 3600 ⟨"u1", "ADMIN", true⟩)
      (by decide) rfl rfl (by decide) (by decide) (by decide)).2.1⟩

/-- C4 counterexample: get-current-user is a protected endpoint other than
change-password, yet a request bearing a valid token with
mustChangePassword = true passes its entire guard chain and reaches the
handler instead of being rejected with the rotation-required response. -/
theorem rotation_guard_me_reachable :
    runChain ⟨"s", 10, .bearer (.wellFormed (signJwt "s" 0 3600 ⟨"u1", "STAFF", true⟩))⟩
        (guardsOf .me) none = .next (some ⟨"u1", "STAFF", true⟩) ∧
    Endpoint.isProtected .me = true ∧
    Endpoint.me ≠ Endpoint.changePassword := by
  refine ⟨by decide, rfl, by decide⟩

/-- C5: with well-formed input, the three login failure cases — no user with
the given email, user found but inactive (even when the password would
verify), and active user whose password does not verify — all produce the
identical 401 response with body "Invalid credentials.". -/
theorem login_failures_identical (db : List StoredUser) (secret : String)
    (now expiresIn : Nat) (email password : String)
    (he : email ≠ "") (hp : password ≠ "") (hv : isValidEmail email = true) :
    (findUserByEmail db email = none →
      login db secret now expiresIn (some email) (some password) =
        .err 401 "Invalid credentials.") ∧
    (∀ u, findUserByEmail db email = some u → u.isActive = false →
      login db secret now expiresIn (some email) (some password) =
        .err 401 "Invalid credentials.") ∧
    (∀ u, findUserByEmail db email = some u → u.isActive = true →
      verifyPassword password u.password = false →
      login db secret now expiresIn (some email) (some password) =
        .err 401 "Invalid credentials.") := by
  refine ⟨?_, ?_, ?_⟩
  · intro h
    simp [login, he, hp, hv, h]
  · intro u h hact
    simp [login, he, hp, hv, h, hact]
  · intro u h hact hpw
    simp [login, he, hp, hv, h, hact, hpw]

/-- Witness for C5 on a concrete two-user table: an unknown email, the
inactive user with its correct password, and the active user with a wrong
password all get the same response. -/
theorem login_failures_identical_witness :
    (login [⟨"u1", "a@b.c", ⟨"Secret1!", 0⟩, "Alice", "ADMIN", none, true, false, true, none⟩,
            ⟨"u2", "i@b.c", ⟨"Secret1!", 0⟩, "Ian", "STAFF", none, false, false, true, none⟩]
        "s" 5 3600 (some "x@b.c") (some "Secret1!") = .err 401 "Invalid credentials.") ∧
    (login [⟨"u1", "a@b.c", ⟨"Secret1!", 0⟩, "Alice", "ADMIN", none, true, false, true, none⟩,
            ⟨"u2", "i@b.c", ⟨"Secret1!", 0⟩, "Ian", "STAFF", none, false, false, true, none⟩]
        "s" 5 3600 (some "i@b.c") (some "Secret1!") = .err 401 "Invalid credentials.") ∧
    (login [⟨"u1", "a@b.c", ⟨"Secret1!", 0⟩, "Alice", "ADMIN", none, true, false, true, none⟩,
            ⟨"u2", "i@b.c", ⟨"Secret1!", 0⟩, "Ian", "STAFF", none, false, false, true, none⟩]
        "s" 5 3600 (some "a@b.c") (some "Wrong9?x") = .err 401 "Invalid credentials.") :=
  ⟨(login_failures_identical _ "s" 5 3600 "x@b.c" "Secret1!"
      (by decide) (by decide) (by decide)).1 (by decide),
   (login_failures_identical _ "s" 5 3600 "i@b.c" "Secret1!"
      (by decide) (by decide) (by decide)).2.1
     ⟨"u2", "i@b.c", ⟨"Secret1!", 0⟩, "Ian", "STAFF", none, false, false, true, none⟩
     (by decide) (by decide),
   (login_failures_identical _ "s" 5 3600 "a@b.c" "Wrong9?x"
      (by decide) (by decide) (by decide)).2.2
     ⟨"u1", "a@b.c", ⟨"Secret1!", 0⟩, "Alice", "ADMIN", none, true, false, true, none⟩
     (by decide) (by decide) (by decide)⟩

theorem findUserById_map_update (db : List StoredUser) (userId : String)
    (user : StoredUser) (f : StoredUser → StoredUser)
    (hf : ∀ v, (f v).id = v.id)
    (h : findUserById db userId = some user) :
    findUserById (db.map fun u => if u.id = user.id then f u else u) userId =
      some (f user) := by
  have hid : user.id = userId := by
    have hp := List.find?_some h
    simpa using hp
  unfold findUserById at h ⊢
  induction db with
  | nil => simp at h
  | cons a l ih =>
    rw [List.map_cons]
    by_cases ha : a.id = userId
    · rw [List.find?_cons_of_pos _ (by simp [ha])] at h
      injection h with h
      subst h
      rw [if_pos rfl]
      exact List.find?_cons_of_pos _ (by simp [hf, ha])
    · rw [List.find?_cons_of_neg _ (by simp [ha])] at h
      have hane : ¬ (a.id = user.id) := by rw [hid]; exact ha
      rw [if_neg hane, List.find?_cons_of_neg _ (by simp [ha])]
      exact ih h

/-- C9: for a change-password call with both fields supplied by an
authenticated user whose record exists: a false canChangePassword flag fails
403; a current password that does not verify fails 400 "Current password is
incorrect."; a weak new password fails 400 with the validator's violation;
each failure leaves the user table unchanged; and on success the stored
digest becomes the hash of the new password, mustChangePassword is cleared,
and every other user row survives unchanged. -/
theorem changePassword_correct (db : List StoredUser) (salt : Nat) (userId : String)
    (currentPassword newPassword : String) (user : StoredUser)
    (hc : currentPassword ≠ "") (hn : newPassword ≠ "")
    (hfind : findUserById db userId = some user) :
    (user.canChangePassword = false →
      changePassword db salt userId (some currentPassword) (some newPassword) =
        .err 403 "This account is not allowed to change password." db) ∧
    (user.canChangePassword = true →
      verifyPassword currentPassword user.password = false →
      changePassword db salt userId (some currentPassword) (some newPassword) =
        .err 400 "Current password is incorrect." db) ∧
    (∀ v, user.canChangePassword = true →
      verifyPassword currentPassword user.password = true →
      validatePasswordStrength newPassword = some v →
      changePassword db salt userId (some currentPassword) (some newPassword) =
        .err 400 v db) ∧
    (user.canChangePassword = true →
      verifyPassword currentPassword user.password = true →
      validatePasswordStrength newPassword = none →
      ∃ newDb,
        changePassword db salt userId (some currentPassword) (some newPassword) =
          .ok newDb ∧
        findUserById newDb userId = some
          { user with password := hashPassword salt newPassword,
                      mustChangePassword := false } ∧
        ∀ u ∈ db, u.id ≠ user.id → u ∈ newDb) := by
  refine ⟨?_, ?_, ?_, ?_⟩
  · intro hcan
    simp [changePassword, hc, hn, hfind, hcan]
  · intro hcan hpw
    simp [changePassword, hc, hn, hfind, hcan, hpw]
  · intro v hcan hpw hweak
    simp [changePassword, hc, hn, hfind, hcan, hpw, hweak]
  · intro hcan hpw hstrong
    refine ⟨db.map fun u =>
        if u.id = user.id then
          { u with password := hashPassword salt newPassword,
                   mustChangePassword := false }
        else u, ?_, ?_, ?_⟩
    · simp [changePassword, hc, hn, hfind, hcan, hpw, hstrong]
    · exact findUserById_map_update db userId user _ (fun v => rfl) hfind
    · intro u hu hne
      exact List.mem_map.mpr ⟨u, hu, by rw [if_neg hne]⟩

/-- Witness for C9 on a one-user table: the success branch replaces the
digest and clears mustChangePassword. -/
theorem changePassword_correct_witness :
    ∃ newDb,
      changePassword
        [⟨"u1", "a@b.c", ⟨"Old1!pass", 0⟩, "Alice", "STAFF", none, true, true, true, none⟩]
        7 "u1" (some "Old1!pass") (some "New2?pass") = .ok newDb ∧
      findUserById newDb "u1" = some
        ⟨"u1", "a@b.c", hashPassword 7 "New2?pass", "Alice", "STAFF", none, true, false, true, none⟩ ∧
      ∀ u ∈ [(⟨"u1", "a@b.c", ⟨"Old1!pass", 0⟩, "Alice", "STAFF", none, true, true, true,
          none⟩ : StoredUser)],
        u.id ≠ "u1" → u ∈ newDb :=
  (changePassword_correct
      [⟨"u1", "a@b.c", ⟨"Old1!pass", 0⟩, "Alice", "STAFF", none, true, true, true, none⟩]
      7 "u1" "Old1!pass" "New2?pass"
      ⟨"u1", "a@b.c", ⟨"Old1!pass", 0⟩, "Alice", "STAFF", none, true, true, true, none⟩
      (by decide) (by decide) (by decide)).2.2.2 rfl (by decide) (by decide)

/-- C10: a create-user call that passes validation responds 201 with the
plaintext temporary password in the temporaryPassword field next to the
sanitized user projection, writes the same plaintext to the server log,
attempts the best-effort email, and appends a user record with
mustChangePassword = true — identically whether or not the email delivery
succeeds. -/
theorem createUser_response_contains_temp_password
    (db : List StoredUser) (salt : Nat) (newId tempPassword : String) (emailOk : Bool)
    (email fullName role : String) (departmentArg : Option String)
    (he : email ≠ "") (hf : fullName ≠ "") (hr : role ≠ "")
    (hv : isValidEmail email = true) (hrole : ALLOWED_ROLES.contains role = true)
    (hfresh : findUserByEmail db email = none) :
    (createUser db salt newId tempPassword emailOk
        (some email) (some fullName) (some role) departmentArg).status = 201 ∧
    (createUser db salt newId tempPassword emailOk
        (some email) (some fullName) (some role) departmentArg).temporaryPassword =
      some tempPassword ∧
    ("[user.create] New user " ++ email ++ " created with temporary password: " ++
        tempPassword) ∈
      (createUser db salt newId tempPassword emailOk
        (some email) (some fullName) (some role) departmentArg).log ∧
    (createUser db salt newId tempPassword emailOk
        (some email) (some fullName) (some role) departmentArg).user = some
      { id := newId, email := email, fullName := fullName, role := role,
        department := normalizeDepartment departmentArg,
        mustChangePassword := true, canChangePassword := true, isActive := true } ∧
    (createUser db salt newId tempPassword emailOk
        (some email) (some fullName) (some role) departmentArg).emailAttempted = true ∧
    ∃ u : StoredUser,
      (createUser db salt newId tempPassword emailOk
        (some email) (some fullName) (some role) departmentArg).db = db ++ [u] ∧
      u.mustChangePassword = true ∧ u.password = hashPassword salt tempPassword ∧
      u.email = email := by
  have hmem : role ∈ ALLOWED_ROLES := by simpa using hrole
  refine ⟨?_, ?_, ?_, ?_, ?_, ?_⟩ <;>
    simp [createUser, he, hf, hr, hv, hmem, hfresh]

/-- Witness for C10 at concrete inputs on an empty user table, with the
email delivery failing (the response is unaffected). -/
theorem createUser_response_contains_temp_password_witness :
    (createUser [] 3 "u9" "Tmp1!pass" false
        (some "n@b.c") (some "Nia") (some "STAFF") none).status = 201 ∧
    (createUser [] 3 "u9" "Tmp1!pass" false
        (some "n@b.c") (some "Nia") (some "STAFF") none).temporaryPassword =
      some "Tmp1!pass" ∧
    ("[user.create] New user " ++ "n@b.c" ++ " created with temporary password: " ++
        "Tmp1!pass") ∈
      (createUser [] 3 "u9" "Tmp1!pass" false
        (some "n@b.c") (some "Nia") (some "STAFF") none).log ∧
    (createUser [] 3 "u9" "Tmp1!pass" false
        (some "n@b.c") (some "Nia") (some "STAFF") none).user = some
      { id := "u9", email := "n@b.c", fullName := "Nia", role := "STAFF",
        department := normalizeDepartment none,
        mustChangePassword := true, canChangePassword := true, isActive := true } ∧
    (createUser [] 3 "u9" "Tmp1!pass" false
        (some "n@b.c") (some "Nia") (some "STAFF") none).emailAttempted = true ∧
    ∃ u : StoredUser,
      (createUser [] 3 "u9" "Tmp1!pass" false
        (some "n@b.c") (some "Nia") (some "STAFF") none).db = [] ++ [u] ∧
      u.mustChangePassword = true ∧ u.password = hashPassword 3 "Tmp1!pass" ∧
      u.email = "n@b.c" :=
  createUser_response_contains_temp_password [] 3 "u9" "Tmp1!pass" false
    "n@b.c" "Nia" "STAFF" none
    (by decide) (by decide) (by decide) (by decide) (by decide) (by decide)

theorem findStockLevel_map_overwrite (levels : List StockLevelRow) (i w : String)
    (q rl : Int)
    (h : (levels.any fun r => r.itemId == i && r.warehouseId == w) = true) :
    findStockLevel (levels.map fun r =>
        if r.itemId == i && r.warehouseId == w then
          { r with quantity := q, reorderLevel := rl }
        else r) i w =
      some { itemId := i, warehouseId := w, quantity := q, reorderLevel := rl } := by
  induction levels with
  | nil => simp at h
  | cons a l ih =>
    by_cases ha : (a.itemId == i && a.warehouseId == w) = true
    · obtain ⟨h1, h2⟩ : a.itemId = i ∧ a.warehouseId = w := by simpa using ha
      unfold findStockLevel
      rw [List.map_cons, if_pos ha, List.find?_cons_of_pos _ (by simp [h1, h2])]
      obtain ⟨ai, aw, aq, ar⟩ := a
      simp only at h1 h2
      rw [h1, h2]
    · simp only [List.any_cons, Bool.or_eq_true] at h
      have h' : (l.any fun r => r.itemId == i && r.warehouseId == w) = true := by
        rcases h with h | h
        · exact absurd h ha
        · exact h
      unfold findStockLevel at ih ⊢
      rw [List.map_cons, if_neg ha, List.find?_cons_of_neg _ (by simpa using ha)]
      exact ih h'

theorem findStockLevel_append_new (levels : List StockLevelRow) (i w : String)
    (q rl : Int)
    (h : (levels.any fun r => r.itemId == i && r.warehouseId == w) = false) :
    findStockLevel (levels ++
        [{ itemId := i, warehouseId := w, quantity := q, reorderLevel := rl }]) i w =
      some { itemId := i, warehouseId := w, quantity := q, reorderLevel := rl } := by
  induction levels with
  | nil =>
    rw [List.nil_append]
    exact List.find?_cons_of_pos _ (by simp)
  | cons a l ih =>
    simp only [List.any_cons, Bool.or_eq_false_iff] at h
    unfold findStockLevel at ih ⊢
    rw [List.cons_append, List.find?_cons_of_neg _ (by simp [h.1])]
    exact ih h.2

theorem upsertStockLevel_fst (levels : List StockLevelRow) (i w : String) (q rl : Int) :
    (upsertStockLevel levels i w q rl).1 =
      { itemId := i, warehouseId := w, quantity := q, reorderLevel := rl } := by
  unfold upsertStockLevel
  split <;> rfl

theorem findStockLevel_upsert (levels : List StockLevelRow) (i w : String) (q rl : Int) :
    findStockLevel (upsertStockLevel levels i w q rl).2 i w =
      some { itemId := i, warehouseId := w, quantity := q, reorderLevel := rl } := by
  unfold upsertStockLevel
  by_cases h : (levels.any fun r => r.itemId == i && r.warehouseId == w) = true
  · rw [if_pos h]
    exact findStockLevel_map_overwrite levels i w q rl h
  · rw [if_neg h]
    exact findStockLevel_append_new levels i w q rl (by simpa using h)

theorem recordOpeningStock_ok (db : StockDb) (actorId itemId warehouseId : String)
    (q : Int) (rlArg : Option Int) (item : Item) (wh : Warehouse)
    (hi : itemId ≠ "") (hw : warehouseId ≠ "") (hq : 0 ≤ q)
    (hitem : findItem db.items itemId = some item) (hact : item.isActive = true)
    (hwh : findWarehouse db.warehouses warehouseId = some wh)
    (hwact : wh.isActive = true) :
    recordOpeningStock db actorId (some itemId) (some warehouseId) (some q) rlArg
        false false =
      .ok { itemId := itemId, warehouseId := warehouseId, quantity := q,
            reorderLevel := rlArg.getD 0 }
        { db with
          stockLevels :=
            (upsertStockLevel db.stockLevels itemId warehouseId q (rlArg.getD 0)).2,
          stockMovements := db.stockMovements ++
            [{ itemId := itemId, warehouseId := warehouseId,
               movementType := .OPENING, quantity := q,
               referenceType := some "OPENING_STOCK", referenceId := none,
               remarks := some "Opening stock", createdById := actorId }] } := by
  have hq' : ¬ (q < 0) := by omega
  simp [recordOpeningStock, hi, hw, hq', hitem, hact, hwh, hwact, upsertStockLevel_fst]

/-- C2: a valid opening-stock call (item exists and is active, warehouse
exists and is active, quantity non-negative) overwrites the StockLevel row
for the (itemId, warehouseId) pair to exactly the requested quantity and
reorder level and appends exactly one new OPENING movement with the same
quantity, reference type OPENING_STOCK and the acting user as creator,
leaving the catalog untouched; a repeated call on the same pair overwrites
the level again and appends a second movement, leaving the first movement in
place unchanged. -/
theorem recordOpeningStock_overwrites_and_logs (db : StockDb)
    (actorId itemId warehouseId : String) (q q2 : Int) (rlArg rl2Arg : Option Int)
    (item : Item) (wh : Warehouse)
    (hi : itemId ≠ "") (hw : warehouseId ≠ "") (hq : 0 ≤ q) (hq2 : 0 ≤ q2)
    (hitem : findItem db.items itemId = some item) (hact : item.isActive = true)
    (hwh : findWarehouse db.warehouses warehouseId = some wh)
    (hwact : wh.isActive = true) :
    ∃ lvl db',
      recordOpeningStock db actorId (some itemId) (some warehouseId) (some q) rlArg
          false false = .ok lvl db' ∧
      lvl = { itemId := itemId, warehouseId := warehouseId, quantity := q,
              reorderLevel := rlArg.getD 0 } ∧
      findStockLevel db'.stockLevels itemId warehouseId = some lvl ∧
      db'.stockMovements = db.stockMovements ++
        [{ itemId := itemId, warehouseId := warehouseId, movementType := .OPENING,
           quantity := q, referenceType := some "OPENING_STOCK", referenceId := none,
           remarks := some "Opening stock", createdById := actorId }] ∧
      db'.items = db.items ∧ db'.warehouses = db.warehouses ∧
      ∃ lvl2 db'',
        recordOpeningStock db' actorId (some itemId) (some warehouseId) (some q2)
            rl2Arg false false = .ok lvl2 db'' ∧
        findStockLevel db''.stockLevels itemId warehouseId =
          some { itemId := itemId, warehouseId := warehouseId, quantity := q2,
                 reorderLevel := rl2Arg.getD 0 } ∧
        db''.stockMovements = db.stockMovements ++
          [{ itemId := itemId, warehouseId := warehouseId, movementType := .OPENING,
             quantity := q, referenceType := some "OPENING_STOCK",
             referenceId := none, remarks := some "Opening stock",
             createdById := actorId },
           { itemId := itemId, warehouseId := warehouseId, movementType := .OPENING,
             quantity := q2, referenceType := some "OPENING_STOCK",
             referenceId := none, remarks := some "Opening stock",
             createdById := actorId }] := by
  refine ⟨_, _,
    recordOpeningStock_ok db actorId itemId warehouseId q rlArg item wh
      hi hw hq hitem hact hwh hwact,
    rfl, findStockLevel_upsert db.stockLevels itemId warehouseId q (rlArg.getD 0),
    rfl, rfl, rfl, _, _,
    recordOpeningStock_ok _ actorId itemId warehouseId q2 rl2Arg item wh
      hi hw hq2 hitem hact hwh hwact,
    findStockLevel_upsert _ itemId warehouseId q2 (rl2Arg.getD 0), ?_⟩
  simp

/-- Witness for C2 on a concrete store with one active item and one active
warehouse and no stock rows, recording 100 and then 50. -/
theorem recordOpeningStock_overwrites_and_logs_witness :
    ∃ lvl db',
      recordOpeningStock
          { items := [{ id := "i2", name := "Ink", sku := none, description := none,
                        unit := "pcs", isTrackable := true, isActive := true,
                        categoryId := "c1" }],
            warehouses := [{ id := "w2", name := "Annex", code := "AX",
                             location := none, description := none,
                             isActive := true }],
            stockLevels := [], stockMovements := [] }
          "u1" (some "i2") (some "w2") (some 100) none false false = .ok lvl db' ∧
      lvl = { itemId := "i2", warehouseId := "w2", quantity := 100,
              reorderLevel := (none : Option Int).getD 0 } ∧
      findStockLevel db'.stockLevels "i2" "w2" = some lvl ∧
      db'.stockMovements = [] ++
        [{ itemId := "i2", warehouseId := "w2", movementType := .OPENING,
           quantity := 100, referenceType := some "OPENING_STOCK",
           referenceId := none, remarks := some "Opening stock",
           createdById := "u1" }] ∧
      db'.items = [{ id := "i2", name := "Ink", sku := none, description := none,
                     unit := "pcs", isTrackable := true, isActive := true,
                     categoryId := "c1" }] ∧
      db'.warehouses = [{ id := "w2", name := "Annex", code := "AX",
                          location := none, description := none,
                          isActive := true }] ∧
      ∃ lvl2 db'',
        recordOpeningStock db' "u1" (some "i2") (some "w2") (some 50) none
            false false = .ok lvl2 db'' ∧
        findStockLevel db''.stockLevels "i2" "w2" =
          some { itemId := "i2", warehouseId := "w2", quantity := 50,
                 reorderLevel := (none : Option Int).getD 0 } ∧
        db''.stockMovements = [] ++
          [{ itemId := "i2", warehouseId := "w2", movementType := .OPENING,
             quantity := 100, referenceType := some "OPENING_STOCK",
             referenceId := none, remarks := some "Opening stock",
             createdById := "u1" },
           { itemId := "i2", warehouseId := "w2", movementType := .OPENING,
             quantity := 50, referenceType := some "OPENING_STOCK",
             referenceId := none, remarks := some "Opening stock",
             createdById := "u1" }] :=
  recordOpeningStock_overwrites_and_logs
    { items := [{ id := "i2", name := "Ink", sku := none, description := none,
                  unit := "pcs", isTrackable := true, isActive := true,
                  categoryId := "c1" }],
      warehouses := [{ id := "w2", name := "Annex", code := "AX", location := none,
                       description := none, isActive := true }],
      stockLevels := [], stockMovements := [] }
    "u1" "i2" "w2" 100 50 none none
    { id := "i2", name := "Ink", sku := none, description := none, unit := "pcs",
      isTrackable := true, isActive := true, categoryId := "c1" }
    { id := "w2", name := "Annex", code := "AX", location := none,
      description := none, isActive := true }
    (by decide) (by decide) (by decide) (by decide)
    (by decide) rfl (by decide) rfl

/-- C1: refutation on the code — the StockLevel upsert and the StockMovement
insert of the opening-stock handler are not atomic.  When the store fails
the movement insert after the upsert has committed, the handler leaves a
reachable state in which the level for (i1, w1) is 100 while the movement
log is empty: the level is updated without the corresponding OPENING
movement. -/
theorem recordOpeningStock_partial_write :
    recordOpeningStock demoStockDb "u1" (some "i1") (some "w1") (some 100) none
        false true =
      .storeError { demoStockDb with
        stockLevels := [{ itemId := "i1", warehouseId := "w1", quantity := 100,
                          reorderLevel := 0 }] } ∧
    findStockLevel
        [{ itemId := "i1", warehouseId := "w1", quantity := 100,
           reorderLevel := 0 }] "i1" "w1" =
      some { itemId := "i1", warehouseId := "w1", quantity := 100,
             reorderLevel := 0 } ∧
    ({ demoStockDb with
        stockLevels := [{ itemId := "i1", warehouseId := "w1", quantity := 100,
                          reorderLevel := 0 }] } : StockDb).stockMovements = [] := by
  refine ⟨by decide, by decide, rfl⟩

end Inventory
